import Mathlib

/-!
Shallow embedding of the NotesApp backend (src/backend/main.py), a FastAPI
CRUD service over a MongoDB collection of notes plus an image attachment
store on disk.  Python exceptions are modelled with an explicit `Except`
layer: each route handler is a pure body that either returns a value or
raises a `PyExc`, and a wrapper reproducing the try/except clauses of the
handler turns the outcome into an HTTP response.  MongoDB is modelled as a
list of documents mutated by first-match operations, the upload directory
as a list of file names, and `uuid4` as a deterministic fresh-name counter.
Timestamps (`datetime.utcnow`) are modelled as a `Nat` passed in by the
caller of each operation.
-/

/-- Exceptions that the embedded handlers can raise: `http` models
`fastapi.HTTPException(status_code, detail)`, `valueError` the
`ValueError` raised by `PyObjectId.validate`, `keyError` a failed Python
dict lookup, and `assertionError` a failed `assert`. -/
inductive PyExc where
  | http (status : Nat) (detail : String)
  | valueError (msg : String)
  | keyError (key : String)
  | assertionError
deriving Repr, DecidableEq

deriving instance DecidableEq for Except

/-- An HTTP response: either a success with a status code and a body, or an
error with a status code and a detail message. -/
inductive Resp (α : Type) where
  | ok (status : Nat) (val : α)
  | err (status : Nat) (detail : String)
deriving Repr, DecidableEq

/-- True on success responses. -/
def Resp.isOk : Resp α → Bool
  | .ok _ _ => true
  | .err _ _ => false

/-- Handler wrapper for routes whose only except clause is
`except Exception: raise HTTPException(500, msg)` (list, get, create,
update, delete note): every raised exception, including an
`HTTPException` raised inside the try block, is converted to a 500. -/
def handleAll (msg : String) (okStatus : Nat) : Except PyExc α → Resp α
  | .ok a => .ok okStatus a
  | .error _ => .err 500 msg

/-- Handler wrapper for routes with `except HTTPException: raise` before
`except Exception: raise HTTPException(500, msg)` (upload_images,
delete_image): an `HTTPException` passes through, anything else becomes
a 500. -/
def handleHttp (msg : String) (okStatus : Nat) : Except PyExc α → Resp α
  | .ok a => .ok okStatus a
  | .error (.http s d) => .err s d
  | .error _ => .err 500 msg

/-- Hexadecimal digit test, as accepted by `bson.ObjectId` for the
24-character string form. -/
def isHexChar (c : Char) : Bool :=
  c.isDigit || ('a' ≤ c && c ≤ 'f') || ('A' ≤ c && c ≤ 'F')

/-- Embeds `bson.ObjectId.is_valid` for string input: a string is a valid
ObjectId exactly when it is 24 hexadecimal characters. -/
def ObjectId.is_valid (s : String) : Bool :=
  s.data.length = 24 && s.data.all isHexChar

/-- Embeds `PyObjectId.validate` (main.py lines 25-31): returns the id on a
valid ObjectId string and raises `ValueError` otherwise. -/
def PyObjectId.validate (v : String) : Except PyExc String :=
  if ObjectId.is_valid v then .ok v else .error (.valueError ("Invalid ObjectId"))

/-- A stored note document.  `_id` is modelled as its string form (the API
serialises it to a string anyway), timestamps as naturals. -/
structure Note where
  id : String
  title : String
  content : String
  images : List String
  created_at : Nat
  updated_at : Nat
deriving Repr, DecidableEq

/-- The MongoDB `notes` collection: the stored documents plus a counter
supplying fresh `_id` values for `insert_one`. -/
structure DB where
  notes : List Note
  nextId : Nat
deriving Repr, DecidableEq

/-- Full system state: the database, the upload directory (list of file
names present on disk), and the `uuid4` fresh-name counter. -/
structure Sys where
  db : DB
  fs : List String
  uuidCounter : Nat
deriving Repr, DecidableEq

/-- Embeds `collection.find_one({"_id": oid})`: first document whose id
matches. -/
def findNote (id : String) : List Note → Option Note
  | [] => none
  | n :: rest => if n.id = id then some n else findNote id rest

/-- Embeds `collection.find_one_and_update({"_id": oid}, {"$set": ...},
return_document=AFTER)`: applies `f` to the first matching document,
returning the post-update document and the new collection. -/
def updateFirst (f : Note → Note) (id : String) : List Note → Option Note × List Note
  | [] => (none, [])
  | n :: rest =>
    if n.id = id then (some (f n), f n :: rest)
    else
      let r := updateFirst f id rest
      (r.1, n :: r.2)

/-- Embeds `collection.delete_one({"_id": oid})`: removes the first
matching document; the boolean is `deleted_count == 1`. -/
def deleteFirst (id : String) : List Note → Bool × List Note
  | [] => (false, [])
  | n :: rest =>
    if n.id = id then (true, rest)
    else
      let r := deleteFirst id rest
      (r.1, n :: r.2)

/-- Deterministic model of a fresh MongoDB ObjectId for document number
`n`: 24 hex characters. -/
def idOfNat (n : Nat) : String :=
  ⟨List.leftpad 24 '0' (Nat.toDigits 16 n)⟩

/-- Deterministic model of `uuid4().hex` for counter value `k`: 32 hex
characters. -/
def uuidHex (k : Nat) : String :=
  ⟨List.leftpad 32 '0' (Nat.toDigits 16 k)⟩

/-- Request body of `POST /notes` (`NoteCreate`, inheriting `NoteBase`):
`title` (validated 1..200 by pydantic), `content` defaulting to the empty
string, and an `images` list defaulting to empty. -/
structure NoteCreate where
  title : String
  content : String := ""
  images : List String := []
deriving Repr, DecidableEq

/-- Request body of `PUT /notes/{id}` (`NoteUpdate`): optional `title`
(validated 1..200 when provided) and optional `content`; `none` models a
field absent from the request. -/
structure NoteUpdate where
  title : Option String := none
  content : Option String := none
deriving Repr, DecidableEq

/-- Pydantic validation of `NoteCreate.title`: `min_length=1,
max_length=200`, counted in characters, checked before the handler runs. -/
def createTitleValid (p : NoteCreate) : Bool :=
  decide (1 ≤ p.title.data.length) && decide (p.title.data.length ≤ 200)

/-- Pydantic validation of `NoteUpdate.title`: when provided it must be
1..200 characters. -/
def updateTitleValid (p : NoteUpdate) : Bool :=
  match p.title with
  | none => true
  | some t => decide (1 ≤ t.data.length) && decide (t.data.length ≤ 200)

/-- Relation ordering notes by `updated_at` descending, as in the
`sort=[("updated_at", -1)]` argument of `GET /notes`. -/
def byUpdatedDesc (x y : Note) : Prop := y.updated_at ≤ x.updated_at

instance : DecidableRel byUpdatedDesc :=
  fun x y => inferInstanceAs (Decidable (y.updated_at ≤ x.updated_at))

instance : IsTotal Note byUpdatedDesc :=
  ⟨fun x y => Nat.le_total y.updated_at x.updated_at⟩

instance : IsTrans Note byUpdatedDesc :=
  ⟨fun _ _ _ h1 h2 => Nat.le_trans h2 h1⟩

/-- Embeds `GET /notes` (main.py lines 126-137): all documents sorted by
`updated_at` descending.  The model uses a stable sort; the spec leaves
the tie-break unspecified. -/
def list_notes (db : DB) : List Note :=
  List.insertionSort byUpdatedDesc db.notes

/-- Try-block body of `GET /notes/{note_id}` (main.py lines 140-147):
validate the id, look the document up, raise 404 when absent. -/
def get_note_body (db : DB) (note_id : String) : Except PyExc Note := do
  let oid ← PyObjectId.validate note_id
  match findNote oid db.notes with
  | none => .error (.http 404 ("Note not found"))
  | some n => .ok n

/-- Embeds `GET /notes/{note_id}` (main.py lines 140-150): the body wrapped
in `except Exception: raise HTTPException(500, "Failed to fetch note")`.
Note that this clause also catches the 404 `HTTPException` raised inside
the try block. -/
def get_note (db : DB) (note_id : String) : Resp Note :=
  handleAll ("Failed to fetch note") 200 (get_note_body db note_id)

/-- Embeds `POST /notes` (main.py lines 153-165) including the pydantic
validation of the payload, which happens before the handler body runs.
The handler inserts `{"title": .., "content": .., "images": payload.images
or [], "created_at": now, "updated_at": now}` and returns the document
found again by the inserted id. -/
def create_note (db : DB) (now : Nat) (p : NoteCreate) : Resp (Option Note) × DB :=
  if createTitleValid p then
    let doc : Note :=
      { id := idOfNat db.nextId
        title := p.title
        content := p.content
        images := if p.images = [] then [] else p.images
        created_at := now
        updated_at := now }
    let db' : DB := { notes := db.notes ++ [doc], nextId := db.nextId + 1 }
    (.ok 201 (findNote doc.id db'.notes), db')
  else
    (.err 422 ("Validation error"), db)

/-- Embeds the `$set` document of `update_note`:
`{"$set": {**update_data, "updated_at": datetime.utcnow()}}`, where
`update_data` holds exactly the fields present in the request
(`model_dump(exclude_unset=True)`): a provided field overwrites the
stored one, an absent field is left untouched, and `updated_at` is always
set to the current time. -/
def applySet (p : NoteUpdate) (now : Nat) (n : Note) : Note :=
  { n with
    title := p.title.getD n.title
    content := p.content.getD n.content
    updated_at := now }

/-- Try-block body of `PUT /notes/{note_id}` (main.py lines 168-184):
validate the id, then `find_one_and_update` with `$set` of the provided
fields plus `updated_at`, raising 404 when no document matched. -/
def update_note_body (db : DB) (now : Nat) (note_id : String) (p : NoteUpdate) :
    Except PyExc Note × DB :=
  match PyObjectId.validate note_id with
  | .error e => (.error e, db)
  | .ok oid =>
    let u := updateFirst (applySet p now) oid db.notes
    match u.1 with
    | none => (.error (.http 404 ("Note not found")), { db with notes := u.2 })
    | some res => (.ok res, { db with notes := u.2 })

/-- Embeds `PUT /notes/{note_id}` (main.py lines 168-187) including the
pydantic validation of the payload.  As in `get_note`, the blanket
`except Exception` converts the 404 raised inside the try block into a
500. -/
def update_note (db : DB) (now : Nat) (note_id : String) (p : NoteUpdate) :
    Resp Note × DB :=
  if updateTitleValid p then
    let r := update_note_body db now note_id p
    (handleAll ("Failed to update note") 200 r.1, r.2)
  else
    (.err 422 ("Validation error"), db)

/-- Try-block body of `DELETE /notes/{note_id}` (main.py lines 190-196):
validate the id, `delete_one`, raise 404 when `deleted_count == 0`. -/
def delete_note_body (db : DB) (note_id : String) : Except PyExc Unit × DB :=
  match PyObjectId.validate note_id with
  | .error e => (.error e, db)
  | .ok oid =>
    let d := deleteFirst oid db.notes
    if d.1 then (.ok (), { db with notes := d.2 })
    else (.error (.http 404 ("Note not found")), { db with notes := d.2 })

/-- Embeds `DELETE /notes/{note_id}` (main.py lines 190-199): the body
wrapped in the blanket `except Exception` clause, success status 204. -/
def delete_note (db : DB) (note_id : String) : Resp Unit × DB :=
  let r := delete_note_body db note_id
  (handleAll ("Failed to delete note") 204 r.1, r.2)

/-- The allowed upload content types (main.py line 203). -/
def ALLOWED_MIME : List String := ["image/jpeg", "image/png", "image/webp"]

/-- Maximum number of images per note (main.py line 204, default 5). -/
def MAX_FILES_PER_NOTE : Nat := 5

/-- Maximum upload size in MB (main.py line 205, default 5). -/
def MAX_FILE_SIZE_MB : Nat := 5

/-- An uploaded file: its declared content type and its byte size (the only
facts about `UploadFile` that the handler consults). -/
structure UploadFile where
  content_type : String
  size : Nat
deriving Repr, DecidableEq

/-- Embeds the extension dict lookup of main.py lines 231-235: a Python
`dict[key]` access, raising `KeyError` on a missing key. -/
def extDict (ct : String) : Except PyExc String :=
  if ct = "image/jpeg" then .ok (".jpg")
  else if ct = "image/png" then .ok (".png")
  else if ct = "image/webp" then .ok (".webp")
  else .error (.keyError ct)

/-- Embeds the per-file loop of `upload_images` (main.py lines 223-240).
Arguments: remaining files, urls saved so far, upload-directory contents,
uuid counter.  Returns the outcome (the saved urls, or the first raised
exception) together with the directory contents and counter as they stand
when the loop stops — files already written stay on disk when a later
file is rejected.  The size check `len(data)/(1024*1024) >
MAX_FILE_SIZE_MB` is the exact rational comparison `size >
MAX_FILE_SIZE_MB * 1024 * 1024`. -/
def processFiles : List UploadFile → List String → List String → Nat →
    Except PyExc (List String) × List String × Nat
  | [], saved, fs, k => (.ok saved, fs, k)
  | f :: rest, saved, fs, k =>
    if f.content_type ∈ ALLOWED_MIME then
      if MAX_FILE_SIZE_MB * 1024 * 1024 < f.size then
        (.error (.http 400 (("File too large (> " ++ Nat.repr MAX_FILE_SIZE_MB) ++ " MB)")), fs, k)
      else
        match extDict f.content_type with
        | .error e => (.error e, fs, k)
        | .ok ext =>
          let name := uuidHex k ++ ext
          processFiles rest (saved ++ [("/uploads/" ++ name)]) (fs ++ [name]) (k + 1)
    else
      (.error (.http 400 (("Unsupported type: ") ++ f.content_type)), fs, k)

/-- Try-block body of `POST /notes/{note_id}/images` (main.py lines
209-250): fetch the note (404 if absent), quota check, truncate to the
remaining slots, run the per-file loop, then `find_one_and_update` the
`images` list (the `assert updated is not None` is modelled as raising
`assertionError` when no document matched). -/
def upload_images_body (sys : Sys) (now : Nat) (note_id : String)
    (files : List UploadFile) : Except PyExc Note × Sys :=
  match PyObjectId.validate note_id with
  | .error e => (.error e, sys)
  | .ok oid =>
    match findNote oid sys.db.notes with
    | none => (.error (.http 404 ("Note not found")), sys)
    | some note =>
      let existing_images := note.images
      let remaining_slots := MAX_FILES_PER_NOTE - existing_images.length
      if remaining_slots ≤ 0 then
        (.error (.http 400 ("Image limit reached for this note")), sys)
      else
        let to_process := files.take remaining_slots
        match processFiles to_process [] sys.fs sys.uuidCounter with
        | (.error e, fs', k') => (.error e, { sys with fs := fs', uuidCounter := k' })
        | (.ok saved_urls, fs', k') =>
          let new_images := existing_images ++ saved_urls
          let u := updateFirst
            (fun n => { n with images := new_images, updated_at := now }) oid sys.db.notes
          match u.1 with
          | some updated =>
            (.ok updated, { db := { notes := u.2, nextId := sys.db.nextId }, fs := fs', uuidCounter := k' })
          | none => (.error .assertionError, { sys with fs := fs', uuidCounter := k' })

/-- Embeds `POST /notes/{note_id}/images` (main.py lines 208-255): the body
wrapped in `except HTTPException: raise` then `except Exception: 500`. -/
def upload_images (sys : Sys) (now : Nat) (note_id : String)
    (files : List UploadFile) : Resp Note × Sys :=
  let r := upload_images_body sys now note_id files
  (handleHttp ("Failed to upload images") 200 r.1, r.2)

/-- Character-level check that `s` starts with `p`, embedding Python
`str.startswith`. -/
def isPrefixList : List Char → List Char → Bool
  | [], _ => true
  | _ :: _, [] => false
  | a :: as, b :: bs => a = b && isPrefixList as bs

/-- Embeds `url.startswith(p)`. -/
def startswith (s p : String) : Bool := isPrefixList p.data s.data

/-- Embeds `os.path.basename`: the part of the path after the last
slash. -/
def basenameChars : List Char → List Char → List Char
  | [], acc => acc
  | c :: cs, acc => if c = '/' then basenameChars cs [] else basenameChars cs (acc ++ [c])

/-- Embeds `os.path.basename(url)`. -/
def basename (s : String) : String := ⟨basenameChars s.data []⟩

/-- Try-block body of `DELETE /notes/{note_id}/images` (main.py lines
259-285): fetch the note (404 if absent), 404 if the url is not in
`images`, best-effort remove the file from disk when the url is under
`/uploads/`, then `find_one_and_update` the filtered `images` list. -/
def delete_image_body (sys : Sys) (now : Nat) (note_id url : String) :
    Except PyExc Note × Sys :=
  match PyObjectId.validate note_id with
  | .error e => (.error e, sys)
  | .ok oid =>
    match findNote oid sys.db.notes with
    | none => (.error (.http 404 ("Note not found")), sys)
    | some note =>
      let images := note.images
      if url ∈ images then
        let fs' :=
          if startswith url ("/uploads/") then
            let file_path := basename url
            if sys.fs.contains file_path then sys.fs.erase file_path else sys.fs
          else sys.fs
        let new_images := images.filter (fun i => i != url)
        let u := updateFirst
          (fun n => { n with images := new_images, updated_at := now }) oid sys.db.notes
        match u.1 with
        | some updated =>
          (.ok updated, { db := { notes := u.2, nextId := sys.db.nextId }, fs := fs', uuidCounter := sys.uuidCounter })
        | none => (.error .assertionError, { sys with fs := fs' })
      else
        (.error (.http 404 ("Image not found on this note")), sys)

/-- Embeds `DELETE /notes/{note_id}/images` (main.py lines 258-290): the
body wrapped in `except HTTPException: raise` then
`except Exception: 500`. -/
def delete_image (sys : Sys) (now : Nat) (note_id url : String) : Resp Note × Sys :=
  let r := delete_image_body sys now note_id url
  (handleHttp ("Failed to delete image") 200 r.1, r.2)

/-- A valid 24-hex-character ObjectId used in concrete scenarios. -/
def exIdA : String := "aaaaaaaaaaaaaaaaaaaaaaaa"

/-- A stored note with no images. -/
def exNoteFresh : Note :=
  { id := exIdA, title := "t", content := "", images := [], created_at := 0, updated_at := 0 }

/-- System state holding exactly `exNoteFresh`, an empty upload directory
and uuid counter 0. -/
def exSysFresh : Sys := ⟨⟨[exNoteFresh], 1⟩, [], 0⟩

/-- A well-typed small upload. -/
def pngFile : UploadFile := ⟨"image/png", 10⟩

/-- An upload of 6 MiB, above the 5 MB limit. -/
def bigFile : UploadFile := ⟨"image/png", 6 * 1024 * 1024⟩

/-- A stored note whose images list holds the same reference twice (such a
note is reachable: `create_note` stores the images list of the payload
verbatim). -/
def exNoteDup : Note :=
  { id := exIdA, title := "t", content := "", images := ["a", "a"], created_at := 0, updated_at := 0 }

/-- System state holding exactly `exNoteDup`. -/
def exSysDup : Sys := ⟨⟨[exNoteDup], 1⟩, [], 0⟩

theorem validate_ok (id : String) (h : ObjectId.is_valid id = true) :
    PyObjectId.validate id = .ok id := by
  simp [PyObjectId.validate, h]

theorem updateFirst_fst (f : Note → Note) (id : String) :
    ∀ (l : List Note) (n : Note), findNote id l = some n → (updateFirst f id l).1 = some (f n) := by
  intro l
  induction l with
  | nil => intro n h; simp [findNote] at h
  | cons m rest ih =>
    intro n h
    by_cases hm : m.id = id
    · rw [findNote, if_pos hm] at h
      injection h with h2
      subst h2
      simp [updateFirst, hm]
    · rw [findNote, if_neg hm] at h
      simp [updateFirst, hm, ih n h]

theorem findNote_updateFirst (f : Note → Note) (id : String) (hf : ∀ m, (f m).id = m.id) :
    ∀ (l : List Note) (n : Note), findNote id l = some n →
      findNote id (updateFirst f id l).2 = some (f n) := by
  intro l
  induction l with
  | nil => intro n h; simp [findNote] at h
  | cons m rest ih =>
    intro n h
    by_cases hm : m.id = id
    · rw [findNote, if_pos hm] at h
      injection h with h2
      subst h2
      simp [updateFirst, hm, findNote, hf]
    · rw [findNote, if_neg hm] at h
      simp [updateFirst, hm, findNote, ih n h]

theorem extDict_ok_of_mem (ct : String) (h : ct ∈ ALLOWED_MIME) : ∃ e, extDict ct = .ok e := by
  simp only [ALLOWED_MIME, List.mem_cons, List.not_mem_nil, or_false] at h
  rcases h with h | h | h <;> subst h
  · exact ⟨".jpg", rfl⟩
  · exact ⟨".png", rfl⟩
  · exact ⟨".webp", rfl⟩

theorem processFiles_all_valid :
    ∀ (l : List UploadFile) (saved fs : List String) (k : Nat),
      (∀ f ∈ l, f.content_type ∈ ALLOWED_MIME ∧ f.size ≤ MAX_FILE_SIZE_MB * 1024 * 1024) →
      ∃ urls fs', processFiles l saved fs k = (.ok (saved ++ urls), fs', k + l.length) ∧
        urls.length = l.length := by
  intro l
  induction l with
  | nil =>
    intro saved fs k _
    exact ⟨[], fs, by simp [processFiles]⟩
  | cons f rest ih =>
    intro saved fs k h
    obtain ⟨hmem, hsize⟩ := h f (List.mem_cons_self f rest)
    have hnotlt : ¬ (MAX_FILE_SIZE_MB * 1024 * 1024 < f.size) := not_lt.mpr hsize
    obtain ⟨e, he⟩ := extDict_ok_of_mem f.content_type hmem
    obtain ⟨urls, fs', hrec, hlen⟩ :=
      ih (saved ++ [("/uploads/" ++ (uuidHex k ++ e))]) (fs ++ [uuidHex k ++ e]) (k + 1)
        (fun g hg => h g (List.mem_cons_of_mem f hg))
    refine ⟨("/uploads/" ++ (uuidHex k ++ e)) :: urls, fs', ?_, by simp [hlen]⟩
    rw [processFiles, if_pos hmem, if_neg hnotlt, he]
    show processFiles rest (saved ++ [("/uploads/" ++ (uuidHex k ++ e))]) (fs ++ [uuidHex k ++ e]) (k + 1) = _
    rw [hrec]
    simp only [Prod.mk.injEq, Except.ok.injEq, List.length_cons]
    refine ⟨by simp, trivial, by omega⟩

theorem filter_ne_eq_erase_of_count_one :
    ∀ (l : List String) (url : String), l.count url = 1 →
      l.filter (fun i => i != url) = l.erase url := by
  intro l
  induction l with
  | nil => intro url h; simp at h
  | cons a t ih =>
    intro url h
    by_cases ha : a = url
    · subst ha
      have ht : t.count a = 0 := by
        have hc := List.count_cons_self a t
        omega
      have hnot : a ∉ t := List.count_eq_zero.mp ht
      have hfil : t.filter (fun i => i != a) = t := by
        refine List.filter_eq_self.mpr (fun b hb => ?_)
        have hne : b ≠ a := fun e => hnot (e ▸ hb)
        simpa using hne
      simp [List.filter_cons, hfil]
    · have h' : t.count url = 1 := by
        have hc := List.count_cons url a t
        simp [ha] at hc
        omega
      have hba : (a == url) = false := by
        simpa using ha
      simp [List.filter_cons, List.erase_cons, hba, ih url h', ha]

/-- Claim C1: the claim states that `GET /notes/{id}` fails with 404 for a
malformed id, for a well-formed but absent id, and after a successful
delete of the same id.  The code instead returns 500 in all three cases:
the blanket `except Exception` clause of `get_note` catches the
handler-raised `HTTPException(404)` (and the `ValueError` of a malformed
id) and converts it to `HTTPException(500, "Failed to fetch note")`.
This theorem evaluates the embedded `get_note` at the failing inputs:
a well-formed absent id, a malformed id, and a just-deleted id all yield
500, never 404. -/
theorem get_note_not_found_returns_500 :
    get_note ⟨[], 0⟩ exIdA = .err 500 ("Failed to fetch note")
    ∧ get_note ⟨[exNoteFresh], 1⟩ ("zzz") = .err 500 ("Failed to fetch note")
    ∧ (delete_note ⟨[exNoteFresh], 1⟩ exIdA).1 = .ok 204 ()
    ∧ get_note (delete_note ⟨[exNoteFresh], 1⟩ exIdA).2 exIdA = .err 500 ("Failed to fetch note") := by
  decide

/-- Claim C3, counterexample: the claim states that every successful
Create inserts a note with an empty images list regardless of the request
payload.  But `create_note` stores `payload.images or []`, and the
`NoteCreate` schema (inheriting `NoteBase`) accepts an `images` field, so
a payload carrying `images = ["x"]` is stored verbatim: the inserted note
has images `["x"] ≠ []`. -/
theorem create_note_payload_images_cex :
    (create_note ⟨[], 0⟩ 0 ⟨"t", "", ["x"]⟩).2.notes.map Note.images = [["x"]]
    ∧ (["x"] : List String) ≠ [] := by
  decide

/-- Claim C3, amended: every successful Create inserts a note whose images
list equals the images list of the request payload (the empty list when
the payload omits it, since the schema default is `[]`). -/
theorem create_note_inserts_payload_images :
    ∀ (db : DB) (now : Nat) (p : NoteCreate),
      createTitleValid p = true →
      (create_note db now p).2.notes =
        db.notes ++ [{ id := idOfNat db.nextId, title := p.title, content := p.content,
                       images := p.images, created_at := now, updated_at := now }] := by
  intro db now p hv
  unfold create_note
  rw [if_pos hv]
  by_cases him : p.images = []
  · simp [him]
  · simp [him]

/-- Witness for the amended C3 theorem at a concrete payload carrying one
image reference. -/
theorem create_note_inserts_payload_images_witness :
    (create_note ⟨[], 0⟩ 0 ⟨"t", "", ["x"]⟩).2.notes =
      [{ id := idOfNat 0, title := "t", content := "", images := ["x"],
         created_at := 0, updated_at := 0 }] := by
  simpa using create_note_inserts_payload_images ⟨[], 0⟩ 0 ⟨"t", "", ["x"]⟩ (by decide)

/-- Claim C5: Create succeeds exactly when the title length is between 1
and 200 characters; an invalid title is rejected with a 422 validation
error before any persistence call, leaving the database unchanged. -/
theorem create_note_title_validation :
    ∀ (db : DB) (now : Nat) (p : NoteCreate),
      ((create_note db now p).1.isOk = true ↔
        1 ≤ p.title.data.length ∧ p.title.data.length ≤ 200)
      ∧ ((create_note db now p).1.isOk = false →
        create_note db now p = (.err 422 ("Validation error"), db)) := by
  intro db now p
  have hok : (create_note db now p).1.isOk = createTitleValid p := by
    unfold create_note
    by_cases hv : createTitleValid p = true
    · rw [if_pos hv, hv]; rfl
    · rw [if_neg hv]
      simp only [Bool.not_eq_true] at hv
      rw [hv]; rfl
  constructor
  · rw [hok]
    simp [createTitleValid]
  · intro hf
    rw [hok] at hf
    unfold create_note
    rw [if_neg (by simp [hf])]

/-- Witness for C5: the empty title is rejected with 422 and no database
change; a one-character title passes validation. -/
theorem create_note_title_validation_witness :
    create_note ⟨[], 0⟩ 0 ⟨"", "", []⟩ = (.err 422 ("Validation error"), ⟨[], 0⟩)
    ∧ (create_note ⟨[], 0⟩ 0 ⟨"a", "", []⟩).1.isOk = true := by
  constructor
  · exact (create_note_title_validation ⟨[], 0⟩ 0 ⟨"", "", []⟩).2 (by decide)
  · exact ((create_note_title_validation ⟨[], 0⟩ 0 ⟨"a", "", []⟩).1).mpr (by decide)

/-- Claim C8: deleting an image reference that is not in the images list of
the note fails with 404 ("Image not found on this note") and leaves the
whole system state — database and upload directory — untouched. -/
theorem delete_image_absent_reference_404 :
    ∀ (sys : Sys) (now : Nat) (id url : String) (note : Note),
      ObjectId.is_valid id = true →
      findNote id sys.db.notes = some note →
      url ∉ note.images →
      delete_image sys now id url = (.err 404 ("Image not found on this note"), sys) := by
  intro sys now id url note hid hfind hmem
  unfold delete_image delete_image_body
  rw [validate_ok id hid]
  simp only [hfind, if_neg hmem]
  rfl

/-- Witness for C8 at a concrete note and an absent reference. -/
theorem delete_image_absent_reference_404_witness :
    delete_image exSysDup 1 exIdA ("b") = (.err 404 ("Image not found on this note"), exSysDup) :=
  delete_image_absent_reference_404 exSysDup 1 exIdA ("b") exNoteDup
    (by decide) (by decide) (by decide)

/-- Claim C9: listing returns all stored notes (a permutation of the
collection) sorted by `updated_at` descending, and in the concrete
scenario of creating note A at time 0 and then note B at time 1, the
listing places B before A. -/
theorem list_notes_sorted_by_updated_desc :
    (∀ db : DB, List.Sorted byUpdatedDesc (list_notes db) ∧ (list_notes db).Perm db.notes)
    ∧ (list_notes (create_note (create_note ⟨[], 0⟩ 0 ⟨"A", "", []⟩).2 1 ⟨"B", "", []⟩).2).map Note.title
        = ["B", "A"] := by
  constructor
  · intro db
    exact ⟨List.sorted_insertionSort byUpdatedDesc db.notes,
           List.perm_insertionSort byUpdatedDesc db.notes⟩
  · decide

/-- Claim C10: the extension dict of `upload_images` has exactly the
allowed content types as keys, and the per-file loop can never raise
`KeyError`: every file reaching the lookup has already passed the
`ALLOWED_MIME` membership check. -/
theorem upload_ext_lookup_total :
    (∀ ct : String, ct ∈ ALLOWED_MIME ↔ ∃ e, extDict ct = .ok e)
    ∧ ∀ (files : List UploadFile) (saved fs : List String) (k : Nat) (m : String),
        (processFiles files saved fs k).1 ≠ .error (.keyError m) := by
  constructor
  · intro ct
    constructor
    · exact extDict_ok_of_mem ct
    · rintro ⟨e, he⟩
      by_cases h1 : ct = "image/jpeg"
      · subst h1; decide
      · by_cases h2 : ct = "image/png"
        · subst h2; decide
        · by_cases h3 : ct = "image/webp"
          · subst h3; decide
          · rw [extDict, if_neg h1, if_neg h2, if_neg h3] at he
            cases he
  · intro files
    induction files with
    | nil =>
      intro saved fs k m
      simp [processFiles]
    | cons f rest ih =>
      intro saved fs k m
      rw [processFiles]
      by_cases hmem : f.content_type ∈ ALLOWED_MIME
      · rw [if_pos hmem]
        by_cases hsize : MAX_FILE_SIZE_MB * 1024 * 1024 < f.size
        · rw [if_pos hsize]
          simp
        · rw [if_neg hsize]
          obtain ⟨e, he⟩ := extDict_ok_of_mem f.content_type hmem
          rw [he]
          exact ih (saved ++ [("/uploads/" ++ (uuidHex k ++ e))]) (fs ++ [uuidHex k ++ e]) (k + 1) m
      · rw [if_neg hmem]
        simp

/-- Witness for C10 at a concrete allowed type and a concrete file list. -/
theorem upload_ext_lookup_total_witness :
    (("image/png") ∈ ALLOWED_MIME ↔ ∃ e, extDict ("image/png") = .ok e)
    ∧ (processFiles [pngFile] [] [] 0).1 ≠ .error (.keyError ("x")) :=
  ⟨upload_ext_lookup_total.1 ("image/png"),
   upload_ext_lookup_total.2 [pngFile] [] [] 0 ("x")⟩

/-- Claim C2: any per-file rejection inside `upload_images` (declared type
outside the allowed set, or size above the limit) aborts the whole call
with exactly that HTTP error, and the database — in particular the images
list of the note — is left unchanged; only the upload directory and the
uuid counter keep the files already written before the failing one. -/
theorem upload_rejection_aborts_without_note_update :
    ∀ (sys : Sys) (now : Nat) (id : String) (files : List UploadFile) (note : Note)
      (s : Nat) (d : String) (fs2 : List String) (k2 : Nat),
      ObjectId.is_valid id = true →
      findNote id sys.db.notes = some note →
      note.images.length < MAX_FILES_PER_NOTE →
      processFiles (files.take (MAX_FILES_PER_NOTE - note.images.length)) [] sys.fs sys.uuidCounter
        = (.error (.http s d), fs2, k2) →
      upload_images sys now id files = (.err s d, { sys with fs := fs2, uuidCounter := k2 }) := by
  intro sys now id files note s d fs2 k2 hid hfind hlen hproc
  have hslots : ¬ (MAX_FILES_PER_NOTE - note.images.length ≤ 0) := by omega
  unfold upload_images upload_images_body
  rw [validate_ok id hid]
  simp only [hfind, if_neg hslots, hproc]
  rfl

/-- Witness for C2: uploading a single oversized file to a note with free
slots fails with 400 and leaves the whole state unchanged. -/
theorem upload_rejection_aborts_without_note_update_witness :
    upload_images exSysFresh 2 exIdA [bigFile] =
      (.err 400 ("File too large (> 5 MB)"), exSysFresh) := by
  have h := upload_rejection_aborts_without_note_update exSysFresh 2 exIdA [bigFile] exNoteFresh
    400 ("File too large (> 5 MB)") [] 0 (by decide) (by decide) (by decide) (by decide)
  simpa using h

/-- Claim C4, counterexample: the claim states that deleting a present
reference removes exactly that one entry and all other entries remain.
`delete_image` instead filters out every copy of the reference: on a note
whose images list is `["a", "a"]`, deleting `"a"` yields `[]`, while
removing exactly the one matched entry would yield `["a"]`. -/
theorem delete_image_one_entry_cex :
    (delete_image exSysDup 1 exIdA ("a")).1 =
      .ok 200 { exNoteDup with images := [], updated_at := 1 }
    ∧ exNoteDup.images.erase ("a") = ["a"]
    ∧ ([] : List String) ≠ ["a"] := by
  decide

/-- Claim C4, amended: deleting a present reference succeeds and removes
every occurrence of that reference from the images list, keeping the
remaining entries in their relative order (the result is a sublist of the
original list); when the reference occurs exactly once this removes
exactly that one entry. -/
theorem delete_image_removes_every_occurrence :
    ∀ (sys : Sys) (now : Nat) (id url : String) (note : Note),
      ObjectId.is_valid id = true →
      findNote id sys.db.notes = some note →
      url ∈ note.images →
      (delete_image sys now id url).1 =
        .ok 200 { note with images := note.images.filter (fun i => i != url), updated_at := now }
      ∧ (note.images.filter (fun i => i != url)).Sublist note.images
      ∧ (note.images.count url = 1 →
          note.images.filter (fun i => i != url) = note.images.erase url) := by
  intro sys now id url note hid hfind hmem
  refine ⟨?_, List.filter_sublist _, filter_ne_eq_erase_of_count_one note.images url⟩
  have hu := updateFirst_fst
    (fun n => { n with images := note.images.filter (fun i => i != url), updated_at := now })
    id sys.db.notes note hfind
  unfold delete_image delete_image_body
  rw [validate_ok id hid]
  simp only [hfind, if_pos hmem, hu]
  rfl

/-- Witness for the amended C4 theorem at a concrete present reference. -/
theorem delete_image_removes_every_occurrence_witness :
    (delete_image exSysDup 1 exIdA ("a")).1 =
      .ok 200 { exNoteDup with images := exNoteDup.images.filter (fun i => i != ("a")), updated_at := 1 }
    ∧ (exNoteDup.images.filter (fun i => i != ("a"))).Sublist exNoteDup.images
    ∧ (exNoteDup.images.count ("a") = 1 →
        exNoteDup.images.filter (fun i => i != ("a")) = exNoteDup.images.erase ("a")) :=
  delete_image_removes_every_occurrence exSysDup 1 exIdA ("a") exNoteDup
    (by decide) (by decide) (by decide)

/-- Claim C6: when the note has free slots and all incoming files are
valid, the upload succeeds, the incoming list is truncated to the
remaining slots, and exactly `min remainingSlots files.length` references
are appended — excess tail files are silently ignored, with no error. -/
theorem upload_truncates_excess_files :
    ∀ (sys : Sys) (now : Nat) (id : String) (files : List UploadFile) (note : Note),
      ObjectId.is_valid id = true →
      findNote id sys.db.notes = some note →
      note.images.length < MAX_FILES_PER_NOTE →
      (∀ f ∈ files, f.content_type ∈ ALLOWED_MIME ∧ f.size ≤ MAX_FILE_SIZE_MB * 1024 * 1024) →
      ∃ saved : List String,
        (upload_images sys now id files).1 =
          .ok 200 { note with images := note.images ++ saved, updated_at := now }
        ∧ saved.length = min (MAX_FILES_PER_NOTE - note.images.length) files.length := by
  intro sys now id files note hid hfind hlen hall
  have hslots : ¬ (MAX_FILES_PER_NOTE - note.images.length ≤ 0) := by omega
  obtain ⟨urls, fs', hrun, hulen⟩ :=
    processFiles_all_valid (files.take (MAX_FILES_PER_NOTE - note.images.length)) [] sys.fs
      sys.uuidCounter (fun f hf => hall f (List.mem_of_mem_take hf))
  rw [List.nil_append] at hrun
  have hu := updateFirst_fst
    (fun n => { n with images := note.images ++ urls, updated_at := now })
    id sys.db.notes note hfind
  refine ⟨urls, ?_, by rw [hulen, List.length_take]⟩
  unfold upload_images upload_images_body
  rw [validate_ok id hid]
  simp only [hfind, if_neg hslots, hrun, hu]
  rfl

/-- Witness for C6: uploading `MAX_FILES_PER_NOTE + 2 = 7` valid images to
a fresh note succeeds with exactly `min 5 7 = 5` stored references. -/
theorem upload_truncates_excess_files_witness :
    ∃ saved : List String,
      (upload_images exSysFresh 2 exIdA (List.replicate 7 pngFile)).1 =
        .ok 200 { exNoteFresh with images := exNoteFresh.images ++ saved, updated_at := 2 }
      ∧ saved.length =
          min (MAX_FILES_PER_NOTE - exNoteFresh.images.length) (List.replicate 7 pngFile).length :=
  upload_truncates_excess_files exSysFresh 2 exIdA (List.replicate 7 pngFile) exNoteFresh
    (by decide) (by decide) (by decide) (by decide)

/-- Claim C7: an update whose payload provides no fields (and more
generally any valid partial payload) refreshes `updated_at` to the
current time while every absent field — `title`, `content`, and always
`images` and `created_at` — keeps its stored value, both in the response
and in the stored document. -/
theorem update_note_preserves_absent_fields :
    ∀ (db : DB) (now : Nat) (id : String) (p : NoteUpdate) (n : Note),
      ObjectId.is_valid id = true →
      updateTitleValid p = true →
      findNote id db.notes = some n →
      (update_note db now id p).1 = .ok 200 (applySet p now n)
      ∧ findNote id (update_note db now id p).2.notes = some (applySet p now n) := by
  intro db now id p n hid hv hfind
  have hu1 := updateFirst_fst (applySet p now) id db.notes n hfind
  have hu2 := findNote_updateFirst (applySet p now) id (fun m => rfl) db.notes n hfind
  unfold update_note update_note_body
  rw [if_pos hv, validate_ok id hid]
  simp only [hu1, hu2]
  exact ⟨rfl, trivial⟩

/-- Witness for C7: the empty payload on a stored note refreshes only
`updated_at`, in the response and in the store. -/
theorem update_note_preserves_absent_fields_witness :
    (update_note ⟨[exNoteFresh], 1⟩ 7 exIdA ⟨none, none⟩).1 =
      .ok 200 (applySet ⟨none, none⟩ 7 exNoteFresh)
    ∧ findNote exIdA (update_note ⟨[exNoteFresh], 1⟩ 7 exIdA ⟨none, none⟩).2.notes =
        some (applySet ⟨none, none⟩ 7 exNoteFresh)
    ∧ applySet ⟨none, none⟩ 7 exNoteFresh = { exNoteFresh with updated_at := 7 } := by
  have h := update_note_preserves_absent_fields ⟨[exNoteFresh], 1⟩ 7 exIdA ⟨none, none⟩
    exNoteFresh (by decide) (by decide) (by decide)
  exact ⟨h.1, h.2, by decide⟩
